import Mathlib

/-
Verification development for the ursa-dsp repository.

Shallow embedding of the core modules:
  * src/ursa_dsp/utils/io.py       (read_docx_text, read_pdf_text, read_file_content)
  * src/ursa_dsp/core/rag.py       (KnowledgeBase.load_examples, get_relevant_examples;
                                    get_full_context is called by processor.py and tested
                                    in tests/test_core.py but absent from src, so it is
                                    modelled from the spec)
  * src/ursa_dsp/core/generator.py (retry wrapper, sanitize_content, generate_section)
  * src/ursa_dsp/core/processor.py (parallel fan-out, index tagging, sort-by-index)
  * src/ursa_dsp/cli.py            (the keyword-argument binding of the process_project call)

Python strings are modelled as Lean String / List Char; the filesystem as an
association list from path to raw file content; a raised Python exception as
Except.error carrying the exception text; third-party extraction libraries
(python-docx, PyPDF2) and the LLM transport as function parameters.
Recursions over character lists use an explicit fuel argument equal to the
list length so that every definition is structural and kernel-reducible.
-/

/-! ## String utilities shared by several modules -/

/-- Python substring test `needle in hay`, over character lists. -/
def subOf (needle : List Char) : List Char → Bool
  | [] => needle.isEmpty
  | c :: rest => needle.isPrefixOf (c :: rest) || subOf needle rest

/-- Python `hay.find(needle)`: index of the first occurrence, `none` when absent. -/
def strFind (needle : List Char) : List Char → Option Nat
  | [] => if needle.isEmpty then some 0 else none
  | c :: rest =>
    if needle.isPrefixOf (c :: rest) then some 0
    else (strFind needle rest).map (· + 1)

/-- Python text-mode read performs universal-newline translation: each
`:\r\n:` pair and each lone `:\r:` becomes `:\n:` (`open(path, "r")` with the
default `newline=None`, cpython semantics on any platform). -/
def decodeNL : List Char → List Char
  | [] => []
  | [c] => if c = '\r' then ['\n'] else [c]
  | c :: d :: rest =>
    if c = '\r' then
      if d = '\n' then '\n' :: decodeNL rest else '\n' :: decodeNL (d :: rest)
    else c :: decodeNL (d :: rest)

/-- The default whitespace set of Python `str.strip()` (ASCII part: space,
tab, newline, carriage return, vertical tab, form feed). -/
def isPySpace (c : Char) : Bool :=
  c = ' ' || c = '\t' || c = '\n' || c = '\r' || c = Char.ofNat 11 || c = Char.ofNat 12

/-- Python `s.strip()`: drop whitespace from both ends. -/
def pyStrip (l : List Char) : List Char :=
  ((l.dropWhile isPySpace).reverse.dropWhile isPySpace).reverse

/-! ## utils/io.py -/

/-- `read_docx_text` (io.py lines 7-23): delegates to python-docx, catches every
exception and returns the empty string on failure.  The extraction library is
the parameter `docx`; an `Except.error` models any exception it raises. -/
def read_docx_text (docx : String → Except String String) (path : String) : String :=
  match docx path with
  | Except.ok t => t
  | Except.error _ => ""

/-- `read_pdf_text` (io.py lines 25-36): delegates to PyPDF2, catches every
exception and returns the empty string on failure. -/
def read_pdf_text (pdf : String → Except String String) (path : String) : String :=
  match pdf path with
  | Except.ok t => t
  | Except.error _ => ""

/-- Python `path.endswith(ext)`, over the underlying character lists. -/
def hasExt (path ext : String) : Bool :=
  ext.data.isSuffixOf path.data

/-- `read_file_content` (io.py lines 38-49): dispatch by extension.
The `.docx` and `.pdf` branches go through the catch-all readers above and
never raise; the `.md`/`.txt` branch calls `open(path).read()` with no
`try/except`, so a path absent from the filesystem raises `FileNotFoundError`
to the caller (modelled as `Except.error`); any other extension logs a warning
and returns the empty string.  The filesystem `fs` maps a path to the raw
content of the file stored there; a text-mode read applies `decodeNL`. -/
def read_file_content (docx pdf : String → Except String String)
    (fs : List (String × String)) (path : String) : Except String String :=
  if hasExt path ".docx" then Except.ok (read_docx_text docx path)
  else if hasExt path ".pdf" then Except.ok (read_pdf_text pdf path)
  else if hasExt path ".md" || hasExt path ".txt" then
    match fs.lookup path with
    | some raw => Except.ok (String.mk (decodeNL raw.data))
    | none => Except.error "FileNotFoundError"
  else Except.ok ""

/-- Writing string `s` to `path` in text mode on Linux stores exactly `s`
(the write-side translation maps each `:\n:` to `os.linesep`, which is `:\n:`
on Linux, and leaves every other character unchanged). -/
def writeFile (fs : List (String × String)) (path s : String) : List (String × String) :=
  (path, s) :: fs

/-! ## core/rag.py -/

/-- `os.path.join(dirname, filename)` for a plain relative filename on Linux. -/
def pathJoin (dirname filename : String) : String :=
  dirname ++ "/" ++ filename

/-- `KnowledgeBase.load_examples` (rag.py lines 16-31): iterate over the
directory listing in order; skip any filename containing the substring
`"Template"`; read every other file through `read_file_content` and append the
content to the example list only when it is non-empty (the Python truthiness
test `if content:`).  An exception escaping `read_file_content` (a missing or
unreadable `.md`/`.txt` file) propagates out of the loop, modelled by
`Except.error`. -/
def load_examples (docx pdf : String → Except String String)
    (fs : List (String × String)) (dirname : String) :
    List String → Except String (List String)
  | [] => Except.ok []
  | filename :: rest =>
    if subOf "Template".data filename.data then
      load_examples docx pdf fs dirname rest
    else
      match read_file_content docx pdf fs (pathJoin dirname filename) with
      | Except.error e => Except.error e
      | Except.ok content =>
        match load_examples docx pdf fs dirname rest with
        | Except.error e => Except.error e
        | Except.ok tail =>
          Except.ok (if content = "" then tail else content :: tail)

/-- True when the character at this position starts a match of the regex
`:\n\n[A-Z][a-z]+:` used by `get_relevant_examples` (rag.py line 43). -/
def isHeadingAt : List Char → Bool
  | '\n' :: '\n' :: c :: d :: _ =>
    ('A' ≤ c && c ≤ 'Z') && ('a' ≤ d && d ≤ 'z')
  | _ => false

/-- `re.search(r"\n\n[A-Z][a-z]+", tail).start()`: index of the leftmost match
of the heading pattern, `none` when no match exists. -/
def searchHeading : List Char → Option Nat
  | [] => none
  | c :: rest =>
    if isHeadingAt (c :: rest) then some 0
    else (searchHeading rest).map (· + 1)

/-- `KnowledgeBase.get_relevant_examples` (rag.py lines 33-60): for each loaded
example containing the literal section title, slice from the occurrence to the
start of the next heading pattern, or take a 2000-character window when no
heading follows; join all segments with the explicit separator. -/
def get_relevant_examples (examples : List String) (section_title : String) : String :=
  let segments := examples.filterMap fun ex =>
    match strFind section_title.data ex.data with
    | none => none
    | some start =>
      let afterTitle := ex.data.drop (start + section_title.data.length)
      match searchHeading afterTitle with
      | some j =>
        some (String.mk ((ex.data.drop start).take (section_title.data.length + j)))
      | none =>
        some (String.mk ((ex.data.drop start).take 2000))
  String.intercalate "\n--- EXAMPLE ---\n" segments

/-- Modelled from the spec: `KnowledgeBase.get_full_context` is invoked at
processor.py line 72 and exercised by tests/test_core.py (which expects the
label `--- START EXAMPLE DSP:`), but no definition of it exists under src/.
Per the spec it returns all loaded texts concatenated, each wrapped with a
start and end label naming its source document; per the spec data model a
knowledge-base entry is the raw text of one example labeled with a source
identifier, so an entry is modelled as a (source, text) pair. -/
def wrapExample (entry : String × String) : String :=
  "--- START EXAMPLE DSP: " ++ entry.1 ++ " ---\n" ++ entry.2 ++
    "\n--- END EXAMPLE DSP: " ++ entry.1 ++ " ---\n"

/-- Modelled from the spec: the concatenation of all wrapped entries, in
load order. -/
def get_full_context : List (String × String) → String
  | [] => ""
  | entry :: rest => wrapExample entry ++ get_full_context rest

/-! ## core/generator.py -/

/-- tenacity `wait_exponential(multiplier=1, min=4, max=60)` (generator.py
line 29): the sleep after failed attempt number `attempt` is
`multiplier * 2 ^ (attempt - 1)` clamped into `[min, max]`, in seconds —
tenacity computes the wait from `attempt_number - 1` before the attempt
counter is incremented (tenacity 8.2.x `wait.py`), so the first sleep uses
exponent 0. -/
def backoffWait (attempt : Nat) : Nat :=
  max 4 (min (2 ^ (attempt - 1)) 60)

/-- One attempt of `_call_gemini` (generator.py lines 35-44): the transport
(`client.models.generate_content` followed by reading `response.text`) either
raises, or yields a text; an empty text raises
`ValueError("Empty response from Gemini API")` inside the retried body. -/
def attemptOnce (transport : Nat → Except String String) (k : Nat) : Except String String :=
  match transport k with
  | Except.ok t =>
    if t = "" then Except.error "ValueError: Empty response from Gemini API"
    else Except.ok t
  | Except.error e => Except.error e

/-- Outcome of the tenacity retry loop together with the number of attempts
made and the sleeps performed between attempts. -/
structure RetryTrace where
  result : Except String String
  attempts : Nat
  waits : List Nat

/-- The tenacity loop of `_call_gemini` (generator.py lines 27-34):
`stop_after_attempt(5)`, `retry_if_exception_type(Exception)`.  Attempt `k`
runs; on success the result is returned at once; on failure with attempts
remaining, the loop sleeps `backoffWait k` and retries; when the attempt
budget is exhausted, tenacity raises `RetryError` wrapping the last attempt
(the default `reraise=False`), modelled as an error string tagging the last
exception text. -/
def retryFrom (transport : Nat → Except String String) : Nat → Nat → RetryTrace
  | _, 0 => { result := Except.error "RetryError: no attempt allowed", attempts := 0, waits := [] }
  | k, 1 =>
    match attemptOnce transport k with
    | Except.ok t => { result := Except.ok t, attempts := 1, waits := [] }
    | Except.error e => { result := Except.error ("RetryError: " ++ e), attempts := 1, waits := [] }
  | k, n + 2 =>
    match attemptOnce transport k with
    | Except.ok t => { result := Except.ok t, attempts := 1, waits := [] }
    | Except.error _ =>
      let rest := retryFrom transport (k + 1) (n + 1)
      { result := rest.result, attempts := rest.attempts + 1,
        waits := backoffWait k :: rest.waits }

/-- The full retry trace of one `_call_gemini` call: first attempt is number
1, at most 5 attempts. -/
def retryTrace (transport : Nat → Except String String) : RetryTrace :=
  retryFrom transport 1 5

/-- `DSPGenerator._call_gemini` (generator.py lines 27-44): the value returned
to the caller, or the exception that escapes the retry wrapper. -/
def call_gemini (transport : Nat → Except String String) : Except String String :=
  (retryTrace transport).result

/-- The result of `json.loads`: a parsed JSON document.  Object field lists
produced by `json.loads` have unique keys (a later duplicate overwrites). -/
inductive Json where
  | null
  | bool (b : Bool)
  | num (n : Int)
  | str (s : String)
  | arr (elems : List Json)
  | obj (fields : List (String × Json))

/-- Python `parsed_json.get("section_content", "")` (generator.py line 107):
defined on dicts, returning the default when the key is absent; on any
non-dict JSON value (list, string, number, ...) attribute lookup of `get`
raises `AttributeError`. -/
def pyGet (j : Json) (key : String) (dflt : Json) : Except String Json :=
  match j with
  | Json.obj fields => Except.ok ((fields.lookup key).getD dflt)
  | _ => Except.error "AttributeError: get"

/-- `re.sub(r"```(markdown)?", "", text)` (generator.py line 49): scan left to
right; at each position the greedy regex first tries to consume
` ```markdown `, then ` ``` `; otherwise the character is kept and the scan
advances by one.  `fuel` bounds the recursion by the list length; every step
consumes at least one character, so `fuel = l.length` never runs out. -/
def stripFencesAux : Nat → List Char → List Char
  | 0, l => l
  | _, [] => []
  | fuel + 1, c :: rest =>
    if "```markdown".data.isPrefixOf (c :: rest) then
      stripFencesAux fuel ((c :: rest).drop 11)
    else if "```".data.isPrefixOf (c :: rest) then
      stripFencesAux fuel ((c :: rest).drop 3)
    else c :: stripFencesAux fuel rest

def stripFences (l : List Char) : List Char :=
  stripFencesAux l.length l

/-- `text.replace("```", "")` (generator.py line 50): literal, leftmost,
non-overlapping replacement by the empty string. -/
def replaceTripleAux : Nat → List Char → List Char
  | 0, l => l
  | _, [] => []
  | fuel + 1, c :: rest =>
    if "```".data.isPrefixOf (c :: rest) then
      replaceTripleAux fuel ((c :: rest).drop 3)
    else c :: replaceTripleAux fuel rest

def replaceTriple (l : List Char) : List Char :=
  replaceTripleAux l.length l

/-- `re.sub(r"<[^>]+>", "", text)` (generator.py line 54): at each `<`, the
match runs to the first later `>` provided at least one character stands in
between; on a match the scan resumes after the `>`; otherwise the character is
kept. -/
def stripTagsAux : Nat → List Char → List Char
  | 0, l => l
  | _, [] => []
  | fuel + 1, c :: rest =>
    if c = '<' then
      match rest.takeWhile (fun d => d ≠ '>'), rest.dropWhile (fun d => d ≠ '>') with
      | _ :: _, _ :: rest2 => stripTagsAux fuel rest2
      | _, _ => c :: stripTagsAux fuel rest
    else c :: stripTagsAux fuel rest

def stripTags (l : List Char) : List Char :=
  stripTagsAux l.length l

/-- `DSPGenerator._sanitize_content` (generator.py lines 46-56): remove
code-block fences, remove the remaining literal triple backticks, remove HTML
tags, then `str.strip()`. -/
def sanitize_content (s : String) : String :=
  String.mk (pyStrip (stripTags (replaceTriple (stripFences s.data))))

/-- `_sanitize_content(text=raw_content)` as called at generator.py line 110:
`re.sub` demands a string; a non-string JSON value for `section_content`
raises `TypeError` inside the `try` block. -/
def sanitizeJson : Json → Except String String
  | Json.str s => Except.ok (sanitize_content s)
  | _ => Except.error "TypeError: expected string or bytes-like object"

/-- The prompt f-string of `generate_section` (generator.py lines 67-99),
with the four interpolations; `\x7b` and `\x7d` denote the literal braces of
the example JSON object. -/
def buildPrompt (section_title section_body project_summary full_context : String) : String :=
  "\nYou are an expert Research Compliance Officer at a top-tier university. Your goal is to write a specific section of a Data Security Plan (DSP) for a new research project.\n\n### 1. The Task\nWrite the content for the DSP section titled: **\"" ++
  section_title ++
  "\"**.\nContext/Instructions for this section: \"" ++
  section_body ++
  "\"\n\n### 2. The New Project (Summary)\n" ++
  project_summary ++
  "\n\n### 3. The Knowledge Base (Reference Examples)\nBelow are full text examples of previously approved DSPs. \n**INSTRUCTIONS:** \n1. SEARCH these examples for how they handle the \"" ++
  section_title ++
  "\" section.\n2. ADAPT the best language and security controls to fit the specific needs of the \"New Project\" above.\n3. IGNORE irrelevant details from the examples (e.g., specific names, old dates).\n4. ENSURE the tone is formal, professional, and compliant (NIST 800-171/CMMC standards).\n\n--- START KNOWLEDGE BASE ---\n" ++
  full_context ++
  "\n--- END KNOWLEDGE BASE ---\n\n### 4. Output Format\nReturn **ONLY** a JSON object with a single key \"section_content\". \n- The value must be **STRICT MARKDOWN**.\n- **DO NOT** use HTML tags like <p>, <br>, <div>, or <table>. Use Markdown syntax for lists, bolding, and tables.\n- Do not include the section title in the content.\n\nExample JSON:\n\x7b\n  \"section_content\": \"The research team will utilize **secure methods** to transfer data...\"\n\x7d\n"

/-- `DSPGenerator.generate_section` (generator.py lines 58-116): build the
prompt, call the retrying transport, parse the response with `json.loads`
(the parameter `parse`, an external library), read the `section_content`
field with default `""`, sanitize it, and return `(prompt, content)`.  Any
exception raised inside the `try` block — the `RetryError` after exhausted
retries, a `json.loads` failure on malformed JSON, a non-dict response, a
non-string field value — is caught by the blanket `except Exception` and
turned into the sentinel pair; the function itself never raises, which the
model expresses by returning a plain pair. -/
def generate_section (parse : String → Except String Json)
    (transport : Nat → Except String String)
    (section_title section_body project_summary full_context : String) :
    String × String :=
  let prompt := buildPrompt section_title section_body project_summary full_context
  let attempt : Except String String := do
    let text ← call_gemini transport
    let parsed ← parse text
    let raw ← pyGet parsed "section_content" (Json.str "")
    sanitizeJson raw
  match attempt with
  | Except.ok clean => (prompt, clean)
  | Except.error e => (prompt, "[[ERROR: Generation failed after retries: " ++ e ++ "]]")

/-! ## cli.py -/

/-- The parameter names accepted by `DSPProcessor.process_project`
(processor.py lines 64-66), `self` aside. -/
def processProjectParams : List String :=
  ["project_identifier", "output_dir"]

/-- The keyword arguments passed at the call site cli.py lines 234-236. -/
def cliCallKwargs : List String :=
  ["project_identifier", "metadata", "output_dir"]

/-- Python keyword-argument binding: binding a call raises `TypeError` at the
call site, before the callee body runs, when some keyword names no declared
parameter. -/
def bindKeywordArgs (params kwargs : List String) : Except String Unit :=
  match kwargs.find? (fun k => !params.contains k) with
  | some k => Except.error ("TypeError: process_project() got an unexpected keyword argument " ++ k)
  | none => Except.ok ()

/-! ## core/processor.py -/

/-- One entry of the template list (processor.py lines 53-54): a dict with a
title and a body. -/
structure TemplateSection where
  title : String
  body : String
deriving DecidableEq

/-- One generated result dict `{"title": ..., "content": ...}`
(processor.py line 62). -/
structure GeneratedSection where
  title : String
  content : String
deriving DecidableEq

/-- `DSPProcessor.process_section` for the section at template index `i`
(processor.py lines 44-62): it reads the title off its own template entry and
pairs it with the content returned by `generate_section` (which never raises;
`gen i` is that content for section `i`).  Any exception elsewhere in the
worker — `crash i` — escapes the worker and is caught per-future by
`process_project`. -/
def workerResult (template : List TemplateSection) (gen : Nat → String)
    (crash : Nat → Option String) (i : Nat) : Except String GeneratedSection :=
  match crash i with
  | some e => Except.error e
  | none => Except.ok { title := (template.getD i ⟨"", ""⟩).title, content := gen i }

/-- The per-index entry appended to `results` by the `as_completed` loop
(processor.py lines 119-136): the worker value on success, or the placeholder
`{"title": template[index]["title"], "content": "[[GENERATION ERROR]]"}` when
the future raised. -/
def sectionOutcome (template : List TemplateSection) (gen : Nat → String)
    (crash : Nat → Option String) (i : Nat) : GeneratedSection :=
  match workerResult template gen crash i with
  | Except.ok d => d
  | Except.error _ =>
    { title := (template.getD i ⟨"", ""⟩).title, content := "[[GENERATION ERROR]]" }

/-- The `results` list built by the `as_completed` loop: one
`(index, result)` pair per future, appended in completion order.  The
completion order is the list `order` of template indices. -/
def collectResults (template : List TemplateSection) (gen : Nat → String)
    (crash : Nat → Option String) (order : List Nat) : List (Nat × GeneratedSection) :=
  order.map fun i => (i, sectionOutcome template gen crash i)

/-- `results.sort(key=lambda x: x[0])` followed by
`[data for _, data in results]` (processor.py lines 138-140): sort the
collected pairs by original template index, then strip the index tags.  This
value is the `generated_sections` list that is persisted to the JSON log and
handed to the renderer. -/
def process_project_sections (template : List TemplateSection) (gen : Nat → String)
    (crash : Nat → Option String) (order : List Nat) : List GeneratedSection :=
  ((collectResults template gen crash order).mergeSort
    (fun a b => decide (a.1 ≤ b.1))).map Prod.snd

/-! ## Helper instances and lemmas -/

deriving instance DecidableEq for Except

/-- Two candidate extensions neither of which is a suffix of the other cannot
both match one path. -/
theorem hasExt_excl (path a b : String) (h : hasExt path a = true)
    (hab : ¬ a.data <:+ b.data) (hba : ¬ b.data <:+ a.data) :
    hasExt path b = false := by
  rw [hasExt] at h ⊢
  by_contra hb
  rw [Bool.not_eq_false] at hb
  rw [List.isSuffixOf_iff_suffix] at h hb
  rcases List.suffix_or_suffix_of_suffix h hb with h' | h'
  · exact hab h'
  · exact hba h'

/-- A path with a plain-text extension matches neither the `.docx` nor the
`.pdf` branch of the dispatch. -/
theorem mdtxt_excl (path : String)
    (h : hasExt path ".md" = true ∨ hasExt path ".txt" = true) :
    hasExt path ".docx" = false ∧ hasExt path ".pdf" = false := by
  rcases h with h | h
  · exact ⟨hasExt_excl path ".md" ".docx" h (by decide) (by decide),
      hasExt_excl path ".md" ".pdf" h (by decide) (by decide)⟩
  · exact ⟨hasExt_excl path ".txt" ".docx" h (by decide) (by decide),
      hasExt_excl path ".txt" ".pdf" h (by decide) (by decide)⟩

/-- Universal-newline translation is the identity on carriage-return-free
text. -/
theorem decodeNL_no_cr : ∀ l : List Char, '\r' ∉ l → decodeNL l = l
  | [], _ => rfl
  | [c], h => by
    have hc : ¬ c = '\r' := fun e => h (by simp [e])
    simp [decodeNL, hc]
  | c :: d :: rest, h => by
    have hc : ¬ c = '\r' := fun e => h (by simp [e])
    have ht : '\r' ∉ d :: rest := fun m => h (List.mem_cons_of_mem c m)
    simp only [decodeNL, if_neg hc]
    rw [decodeNL_no_cr (d :: rest) ht]

/-- Mapping an index-reading function over the range of the length recovers a
plain map. -/
theorem map_getD_range {α β : Type _} (l : List α) (f : α → β) (d : α) :
    (List.range l.length).map (fun i => f (l.getD i d)) = l.map f := by
  induction l with
  | nil => simp
  | cons a rest ih =>
    rw [List.length_cons, List.range_succ_eq_map, List.map_cons, List.map_map]
    have : ((fun i => f ((a :: rest).getD i d)) ∘ Nat.succ)
        = fun i => f (rest.getD i d) := by
      funext i
      simp [List.getD_cons_succ]
    rw [this, ih]
    simp [List.getD_cons_zero]

/-- Sorting index-tagged entries collected in any order that is a permutation
of `range n` recovers the entries in index order: the tagged lists are
permutations of each other, both are sorted by the (distinct) tags, and a
sorted list with strictly increasing keys is unique. -/
theorem sort_tagged {β : Type _} (f : Nat → β) (n : Nat) (order : List Nat)
    (h : order.Perm (List.range n)) :
    (order.map (fun i => (i, f i))).mergeSort (fun a b => decide (a.1 ≤ b.1))
      = (List.range n).map (fun i => (i, f i)) := by
  haveI : IsAntisymm (Nat × β) (fun a b => a.1 < b.1) :=
    ⟨fun a b h1 h2 => absurd h2 (Nat.lt_asymm h1)⟩
  set tag : Nat → Nat × β := fun i => (i, f i) with htag
  set M := (order.map tag).mergeSort (fun a b => decide (a.1 ≤ b.1)) with hM
  have hperm : M.Perm ((List.range n).map tag) :=
    (List.mergeSort_perm (order.map tag) _).trans (h.map tag)
  have hsorted_le : List.Pairwise (fun a b : Nat × β => a.1 ≤ b.1) M := by
    have := @List.sorted_mergeSort (Nat × β)
      (fun a b => decide (a.1 ≤ b.1))
      (fun a b c hab hbc => by
        simp only [decide_eq_true_eq] at *
        omega)
      (fun a b => by
        rcases Nat.le_total a.1 b.1 with h' | h' <;> simp [h'])
      (order.map tag)
    exact this.imp (fun hab => by simpa using hab)
  have hkeys : List.Pairwise (fun a b : Nat × β => a.1 ≠ b.1) M := by
    have hfst : (M.map Prod.fst).Perm (List.range n) := by
      have h2 := hperm.map Prod.fst
      rw [List.map_map] at h2
      have hid : (Prod.fst ∘ tag) = id := rfl
      rwa [hid, List.map_id] at h2
    have hnd : (M.map Prod.fst).Nodup :=
      hfst.nodup_iff.mpr (List.nodup_range n)
    exact List.pairwise_map.mp hnd
  have hsorted_lt : List.Pairwise (fun a b : Nat × β => a.1 < b.1) M :=
    (hsorted_le.and hkeys).imp fun hab => lt_of_le_of_ne hab.1 hab.2
  have hsorted_rhs :
      List.Pairwise (fun a b : Nat × β => a.1 < b.1) ((List.range n).map tag) := by
    rw [List.pairwise_map]
    simpa [htag] using List.pairwise_lt_range n
  exact List.eq_of_perm_of_sorted hperm hsorted_lt hsorted_rhs

/-! ## Claim theorems -/

/-- C3: the CLI call site (cli.py lines 234-236) passes the keyword arguments
project_identifier, metadata and output_dir to `DSPProcessor.process_project`,
whose signature (processor.py lines 64-66) declares only project_identifier
and output_dir; Python keyword binding therefore raises a `TypeError` at the
call site, before the callee body runs, so no section is generated on this
path. -/
theorem C3_cli_process_project_call_type_error :
    bindKeywordArgs processProjectParams cliCallKwargs
      = Except.error "TypeError: process_project() got an unexpected keyword argument metadata"
    ∧ "metadata" ∈ cliCallKwargs
    ∧ "metadata" ∉ processProjectParams := by
  decide

/-- C5: `_sanitize_content` strips the markdown code-block fence, the HTML
tags and the surrounding whitespace, so on the input
` ```markdown\n<p>Hello</p>\n``` ` it returns exactly `Hello`. -/
theorem C5_sanitize_example :
    sanitize_content "```markdown\n<p>Hello</p>\n```" = "Hello" := by
  decide

/-- C8: on the corpus `Section 1\nRelevant content here.\n\nSection 2\nOther
content.` with query `Section 1`, `get_relevant_examples` extracts the text
from the occurrence of the title up to the next heading-like boundary (the
blank line before `Section 2`), so the result contains `Relevant content
here` and excludes the body of `Section 2`; when no boundary exists the
window from the match is returned, and several matches are joined with the
explicit separator. -/
theorem C8_relevant_examples_boundary :
    get_relevant_examples
        ["Section 1\nRelevant content here.\n\nSection 2\nOther content."]
        "Section 1"
      = "Section 1\nRelevant content here."
    ∧ subOf "Relevant content here".data
        (get_relevant_examples
          ["Section 1\nRelevant content here.\n\nSection 2\nOther content."]
          "Section 1").data = true
    ∧ subOf "Other content.".data
        (get_relevant_examples
          ["Section 1\nRelevant content here.\n\nSection 2\nOther content."]
          "Section 1").data = false
    ∧ get_relevant_examples ["Section 1\nabc"] "Section 1" = "Section 1\nabc"
    ∧ get_relevant_examples ["Section 1\na", "Section 1\nb"] "Section 1"
        = "Section 1\na\n--- EXAMPLE ---\nSection 1\nb" := by
  decide

/-- C2: every loaded (source, text) entry appears in the output of
`get_full_context` wrapped between its start and end labels; the output is the
concatenation of all wrapped entries.  The operation itself is modelled from
the spec because no definition of `get_full_context` exists under src. -/
theorem C2_full_context_wraps_each_source (examples : List (String × String))
    (entry : String × String) (h : entry ∈ examples) :
    ∃ pre post, get_full_context examples = pre ++ wrapExample entry ++ post := by
  induction examples with
  | nil => cases h
  | cons a rest ih =>
    rcases List.mem_cons.mp h with rfl | hmem
    · exact ⟨"", get_full_context rest, by simp [get_full_context, String.append_assoc]⟩
    · obtain ⟨pre, post, hp⟩ := ih hmem
      refine ⟨wrapExample a ++ pre, post, ?_⟩
      show wrapExample a ++ get_full_context rest = _
      rw [hp]
      simp [String.append_assoc]

/-- C2 witness: a concrete knowledge base of one document. -/
theorem C2_full_context_wraps_each_source_witness :
    ∃ pre post, get_full_context [("ex1.txt", "hello")]
      = pre ++ wrapExample ("ex1.txt", "hello") ++ post :=
  C2_full_context_wraps_each_source [("ex1.txt", "hello")] ("ex1.txt", "hello")
    (by decide)

/-- C6 counterexample: reading a `.txt` path that does not exist raises
`FileNotFoundError` to the caller — the plain-text branch of
`read_file_content` has no `try/except` — refuting the claim that the reader
never raises. -/
theorem C6_counterexample_missing_txt_raises :
    read_file_content (fun _ => Except.ok "") (fun _ => Except.ok "") [] "missing.txt"
      = Except.error "FileNotFoundError" := by
  decide

/-- C6 amended: `read_file_content` returns the file text or an empty string
without raising for `.docx`, `.pdf` and unknown extensions (the last with a
warning), and returns the text of an existing `.md`/`.txt` file; the only way
it raises is a `.md`/`.txt` path whose file cannot be opened, in which case
the `FileNotFoundError` propagates to the caller. -/
theorem C6_amended_read_contract (docx pdf : String → Except String String)
    (fs : List (String × String)) (path : String) :
    ((hasExt path ".md" = true ∨ hasExt path ".txt" = true) →
      ∀ raw, fs.lookup path = some raw →
        read_file_content docx pdf fs path = Except.ok (String.mk (decodeNL raw.data)))
    ∧ (hasExt path ".docx" = false → hasExt path ".pdf" = false →
        hasExt path ".md" = false → hasExt path ".txt" = false →
        read_file_content docx pdf fs path = Except.ok "")
    ∧ (∀ e, read_file_content docx pdf fs path = Except.error e →
        (hasExt path ".md" = true ∨ hasExt path ".txt" = true)
        ∧ fs.lookup path = none ∧ e = "FileNotFoundError") := by
  refine ⟨?_, ?_, ?_⟩
  · intro hx raw hraw
    obtain ⟨hd, hp⟩ := mdtxt_excl path hx
    rcases hx with h | h <;> simp [read_file_content, hd, hp, h, hraw]
  · intro h1 h2 h3 h4
    simp [read_file_content, h1, h2, h3, h4]
  · intro e he
    by_cases h1 : hasExt path ".docx" = true
    · simp [read_file_content, h1] at he
    by_cases h2 : hasExt path ".pdf" = true
    · simp [read_file_content, h1, h2] at he
    by_cases h3 : (hasExt path ".md" || hasExt path ".txt") = true
    · cases hl : fs.lookup path with
      | some raw => simp [read_file_content, h1, h2, h3, hl] at he
      | none =>
        simp only [read_file_content, h1, h2, h3] at he
        rw [hl] at he
        refine ⟨by simpa using h3, rfl, ?_⟩
        cases he
        rfl
    · simp [read_file_content, h1, h2, h3] at he

/-- C6 witness: an existing `.md` file is read back without error. -/
theorem C6_amended_read_contract_witness :
    read_file_content (fun _ => Except.ok "") (fun _ => Except.ok "")
        [("a.md", "hi")] "a.md" = Except.ok "hi" := by
  have h := (C6_amended_read_contract (fun _ => Except.ok "") (fun _ => Except.ok "")
    [("a.md", "hi")] "a.md").1 (Or.inl (by decide)) "hi" (by decide)
  exact h.trans (by decide)

/-- C7 counterexample: a hidden file with a recognized extension and
non-empty content is loaded, refuting the claim that every hidden file is
skipped: a directory whose only entry is the hidden file `.secret.md` yields
one loaded example, not zero. -/
theorem C7_counterexample_hidden_md_loaded :
    load_examples (fun _ => Except.ok "") (fun _ => Except.ok "")
        [("example_dsps/.secret.md", "x")] "example_dsps" [".secret.md"]
      = Except.ok ["x"]
    ∧ (["x"] : List String) ≠ [] := by
  decide

/-- C7 amended: loading skips exactly the files whose name contains the
case-sensitive marker `Template` and the files whose extracted content is
empty (which covers hidden files only when their extension is unrecognized,
since those read as empty); the entries loaded are the contents of the
remaining files in listing order, so their number equals the number of such
files. -/
theorem C7_amended_load_examples_filter (docx pdf : String → Except String String)
    (fs : List (String × String)) (dirname : String) (content : String → String)
    (listing : List String)
    (hread : ∀ f ∈ listing,
      read_file_content docx pdf fs (pathJoin dirname f) = Except.ok (content f)) :
    load_examples docx pdf fs dirname listing
      = Except.ok ((listing.filter fun f =>
          !subOf "Template".data f.data && !decide (content f = "")).map content)
    ∧ ∀ result, load_examples docx pdf fs dirname listing = Except.ok result →
        result.length = (listing.filter fun f =>
          !subOf "Template".data f.data && !decide (content f = "")).length := by
  have main : load_examples docx pdf fs dirname listing
      = Except.ok ((listing.filter fun f =>
          !subOf "Template".data f.data && !decide (content f = "")).map content) := by
    induction listing with
    | nil => simp [load_examples]
    | cons f rest ih =>
      have hf := hread f (List.mem_cons_self f rest)
      have hrest := ih fun g hg => hread g (List.mem_cons_of_mem f hg)
      by_cases ht : subOf "Template".data f.data = true
      · simp [load_examples, ht, List.filter_cons, hrest]
      · by_cases hc : content f = ""
        · simp [load_examples, ht, hf, hrest, List.filter_cons, hc]
        · simp [load_examples, ht, hf, hrest, List.filter_cons, hc]
  refine ⟨main, fun result hr => ?_⟩
  rw [main] at hr
  cases hr
  simp [List.length_map]

/-- C7 witness: a template-named file and an empty-content file are skipped,
the remaining file is loaded. -/
theorem C7_amended_load_examples_filter_witness :
    load_examples (fun _ => Except.ok "") (fun _ => Except.ok "")
        [("d/a.md", "A"), ("d/b.md", ""), ("d/Old_Template.md", "T")] "d"
        ["Old_Template.md", "a.md", "b.md"]
      = Except.ok ["A"] := by
  have h := (C7_amended_load_examples_filter (fun _ => Except.ok "") (fun _ => Except.ok "")
    [("d/a.md", "A"), ("d/b.md", ""), ("d/Old_Template.md", "T")] "d"
    (fun f => if f = "a.md" then "A" else if f = "b.md" then "" else "T")
    ["Old_Template.md", "a.md", "b.md"] (by decide)).1
  exact h.trans (by decide)

/-- C9 counterexample: a string containing a carriage return does not
round-trip through a `.txt` file, because the text-mode read performs
universal-newline translation: writing `a\rb` reads back as `a\nb`. -/
theorem C9_counterexample_carriage_return :
    read_file_content (fun _ => Except.ok "") (fun _ => Except.ok "")
        (writeFile [] "f.txt" "a\rb") "f.txt" = Except.ok "a\nb"
    ∧ ("a\nb" : String) ≠ "a\rb" := by
  decide

/-- C9 amended: writing a string with no carriage return to a `.txt` or
`.md` path and reading it back through `read_file_content` yields exactly the
written string. -/
theorem C9_amended_plaintext_roundtrip (docx pdf : String → Except String String)
    (fs : List (String × String)) (path S : String)
    (hx : hasExt path ".txt" = true ∨ hasExt path ".md" = true)
    (hcr : '\r' ∉ S.data) :
    read_file_content docx pdf (writeFile fs path S) path = Except.ok S := by
  obtain ⟨hd, hp⟩ := mdtxt_excl path hx.symm
  have hlook : (writeFile fs path S).lookup path = some S := by
    simp [writeFile, List.lookup]
  have hmdtxt : (hasExt path ".md" || hasExt path ".txt") = true := by
    rcases hx with h | h <;> simp [h]
  simp [read_file_content, hd, hp, hmdtxt, hlook, decodeNL_no_cr S.data hcr]

/-- C9 witness: the round trip at the string `hello` and the path `a.txt`. -/
theorem C9_amended_plaintext_roundtrip_witness :
    read_file_content (fun _ => Except.ok "") (fun _ => Except.ok "")
        (writeFile [] "a.txt" "hello") "a.txt" = Except.ok "hello" :=
  C9_amended_plaintext_roundtrip (fun _ => Except.ok "") (fun _ => Except.ok "")
    [] "a.txt" "hello" (Or.inl (by decide)) (by decide)

/-- C4: when every transport attempt raises, the retry wrapper makes exactly
5 attempts, sleeping between them with exponential backoff whose first sleep
is 4 time-units and whose every sleep is capped at 60 ([4, 4, 4, 8] for the
four sleeps), and `generate_section` — a total function, so it never raises
to its caller — returns the original prompt paired with the sentinel error
string embedding the exception that escaped the retry wrapper. -/
theorem C4_failing_transport_retries_and_sentinel
    (parse : String → Except String Json) (err : Nat → String)
    (section_title section_body project_summary full_context : String) :
    generate_section parse (fun k => Except.error (err k))
        section_title section_body project_summary full_context
      = (buildPrompt section_title section_body project_summary full_context,
         "[[ERROR: Generation failed after retries: " ++ ("RetryError: " ++ err 5) ++ "]]")
    ∧ (retryTrace (fun k => Except.error (err k))).attempts = 5
    ∧ (retryTrace (fun k => Except.error (err k))).waits
        = [backoffWait 1, backoffWait 2, backoffWait 3, backoffWait 4]
    ∧ (retryTrace (fun k => Except.error (err k))).waits = [4, 4, 4, 8]
    ∧ backoffWait 1 = 4
    ∧ (∀ k, backoffWait k ≤ 60) := by
  refine ⟨rfl, rfl, rfl, rfl, rfl, fun k => ?_⟩
  exact Nat.max_le.mpr ⟨by norm_num, Nat.min_le_right _ _⟩

/-- C4 witness: a transport that raises `boom` on every attempt. -/
theorem C4_failing_transport_retries_and_sentinel_witness :
    generate_section (fun _ => Except.ok Json.null) (fun _ => Except.error "boom")
        "T" "B" "S" "C"
      = (buildPrompt "T" "B" "S" "C",
         "[[ERROR: Generation failed after retries: " ++ ("RetryError: " ++ "boom") ++ "]]")
    ∧ (retryTrace (fun _ => Except.error "boom")).attempts = 5 := by
  have h := C4_failing_transport_retries_and_sentinel
    (fun _ => Except.ok Json.null) (fun _ => "boom") "T" "B" "S" "C"
  exact ⟨h.1, h.2.1⟩

/-- C10: when the transport succeeds and the response is valid JSON — an
object — without the `section_content` key, `dict.get` supplies the default
empty string, sanitization leaves it empty, and `generate_section` returns
the empty string as the section content, not the sentinel error string (the
empty string cannot equal any sentinel). -/
theorem C10_missing_key_yields_empty_content
    (parse : String → Except String Json) (transport : Nat → Except String String)
    (text : String) (fields : List (String × Json))
    (h1 : transport 1 = Except.ok text) (h2 : text ≠ "")
    (h3 : parse text = Except.ok (Json.obj fields))
    (h4 : fields.lookup "section_content" = none)
    (section_title section_body project_summary full_context : String) :
    generate_section parse transport section_title section_body project_summary full_context
      = (buildPrompt section_title section_body project_summary full_context, "")
    ∧ ∀ e, ("" : String) ≠ "[[ERROR: Generation failed after retries: " ++ e ++ "]]" := by
  constructor
  · have hcall : call_gemini transport = Except.ok text := by
      simp [call_gemini, retryTrace, retryFrom, attemptOnce, h1, h2]
    simp [generate_section, Bind.bind, Except.bind, hcall, h3, pyGet, h4, sanitizeJson]
    rfl
  · intro e h
    have hlen := congrArg String.length h
    rw [String.length_append, String.length_append] at hlen
    have hpos : 0 < ("[[ERROR: Generation failed after retries: " : String).length := by
      decide
    have hz : ("" : String).length = 0 := rfl
    rw [hz] at hlen
    omega

/-- C10 witness: transport returning the empty JSON object. -/
theorem C10_missing_key_yields_empty_content_witness :
    generate_section (fun _ => Except.ok (Json.obj [])) (fun _ => Except.ok "\x7b\x7d")
        "T" "B" "S" "C"
      = (buildPrompt "T" "B" "S" "C", "") :=
  (C10_missing_key_yields_empty_content
    (fun _ => Except.ok (Json.obj [])) (fun _ => Except.ok "\x7b\x7d")
    "\x7b\x7d" [] rfl (by decide) rfl rfl "T" "B" "S" "C").1

/-- C1: for every template, every per-section generation outcome and every
completion order of the concurrent workers (any permutation of the template
indices), the list obtained by tagging each result with its originating
template index, collecting in completion order and sorting by index equals
the in-template-order list of per-section outcomes; in particular the section
titles of the output equal the template titles in template order, so the
output section order always equals the template order. -/
theorem C1_output_order_matches_template
    (template : List TemplateSection) (gen : Nat → String)
    (crash : Nat → Option String) (order : List Nat)
    (h : order.Perm (List.range template.length)) :
    process_project_sections template gen crash order
      = (List.range template.length).map (sectionOutcome template gen crash)
    ∧ (process_project_sections template gen crash order).map GeneratedSection.title
      = template.map TemplateSection.title := by
  have hmain : process_project_sections template gen crash order
      = (List.range template.length).map (sectionOutcome template gen crash) := by
    unfold process_project_sections collectResults
    rw [sort_tagged (sectionOutcome template gen crash) template.length order h]
    rw [List.map_map]
    rfl
  refine ⟨hmain, ?_⟩
  rw [hmain, List.map_map]
  have hcomp : (GeneratedSection.title ∘ sectionOutcome template gen crash)
      = fun i => TemplateSection.title (template.getD i ⟨"", ""⟩) := by
    funext i
    simp only [Function.comp_apply]
    unfold sectionOutcome workerResult
    cases crash i <;> rfl
  rw [hcomp]
  exact map_getD_range template TemplateSection.title ⟨"", ""⟩

/-- C1 witness: three sections completing in the order 2, 0, 1, the middle
worker raising; the output stays in template order with the placeholder in
the middle slot. -/
theorem C1_output_order_matches_template_witness :
    process_project_sections [⟨"A", "a"⟩, ⟨"B", "b"⟩, ⟨"C", "c"⟩]
        (fun i => "g" ++ toString i) (fun i => if i = 1 then some "boom" else none)
        [2, 0, 1]
      = [⟨"A", "g0"⟩, ⟨"B", "[[GENERATION ERROR]]"⟩, ⟨"C", "g2"⟩] := by
  have h := (C1_output_order_matches_template [⟨"A", "a"⟩, ⟨"B", "b"⟩, ⟨"C", "c"⟩]
    (fun i => "g" ++ toString i) (fun i => if i = 1 then some "boom" else none)
    [2, 0, 1] (by decide)).1
  exact h.trans (by decide)
